import Mathlib

/-!
Verification of the responsive viewport layout engine from
`static/scenes/craneoperator/js/scene.js` (santa-tracker-web).

The engine (`calculateViewport_`) computes, from the browser window size and
the width demand of the Blockly side panel, the gameplay viewport's pixel
width, a uniform scale ratio, and a portrait/landscape mode flag, caching the
last-seen window dimensions to skip redundant passes.  JS numeric arithmetic
is modelled over `ℚ` (the algorithm uses only `+ - * / max min <`).

Constants taken from `app.Constants` and the `app.Scene.VIEWPORT_*` statics
are not part of the supplied sources, so they are carried as an explicit
`ViewportConstraints` value, exactly as the spec's data model prescribes.
-/

namespace CraneOperator

/-- Modelled from the spec: the numeric values of the `app.Scene.VIEWPORT_*`
statics and of `app.Constants.BLOCKLY_MIN_WIDTH` / `app.Constants.EDGE_MIN_WIDTH`
are defined in `app.Constants`, which is not among the supplied sources; the
spec turns them into an explicit `ViewportConstraints` value object, which is
what this structure is.  They enter the algorithm only through their values,
so they are plain fields here. -/
structure ViewportConstraints where
  VIEWPORT_MIN_TILES_X : ℚ
  VIEWPORT_MAX_TILES_X : ℚ
  VIEWPORT_MIN_TILES_Y : ℚ
  VIEWPORT_MAX_TILES_Y : ℚ
  TILE_OUTER_SIZE : ℚ
  BLOCKLY_MIN_WIDTH : ℚ
  EDGE_MIN_WIDTH : ℚ
  deriving DecidableEq, Repr

/-- The mutable fields of `app.Scene` touched by the layout engine:
the metrics cache, the cached `LayoutResult` (`width_`, `scaleRatio_`,
`portraitMode_`), the visibility flag set by `toggleVisibility`, the two
CSS state classes the engine toggles (`responsive` on the parent element,
`show` for the portrait overlay), a flag recording the external
tutorial-dismissal signal, and an instrumentation counter incremented each
time the aspect-ratio derivation actually runs. -/
structure SceneState where
  cachedWindowHeight_ : Option ℚ
  cachedWindowWidth_ : Option ℚ
  portraitMode_ : Bool
  width_ : ℚ
  scaleRatio_ : ℚ
  visible_ : Bool
  responsiveClass : Bool
  showClass : Bool
  tutorialDismissed : Bool
  aspectRatioCalls : Nat
  deriving DecidableEq, Repr

/-- Aspect ratio of the viewport: the window's half-width/height ratio,
clamped into `[VIEWPORT_MIN_TILES_X / VIEWPORT_MAX_TILES_Y,
VIEWPORT_MAX_TILES_X / VIEWPORT_MIN_TILES_Y]` (scene.js lines 193-195).
Arguments are the already-clamped window dimensions. -/
def aspectRatioOf (c : ViewportConstraints) (innerWidth innerHeight : ℚ) : ℚ :=
  min (max (innerWidth / 2 / innerHeight)
      (c.VIEWPORT_MIN_TILES_X / c.VIEWPORT_MAX_TILES_Y))
    (c.VIEWPORT_MAX_TILES_X / c.VIEWPORT_MIN_TILES_Y)

/-- The step-4 width `innerHeight * aspectRatio` (scene.js line 196), before
any portrait override. -/
def widthStep4 (c : ViewportConstraints) (innerWidth innerHeight : ℚ) : ℚ :=
  innerHeight * aspectRatioOf c innerWidth innerHeight

/-- Derived quantity `tileSize = max(innerHeight / VIEWPORT_MAX_TILES_Y,
width / VIEWPORT_MAX_TILES_X)` (scene.js lines 198-199), computed from the
step-4 width. -/
def tileSizeOf (c : ViewportConstraints) (innerWidth innerHeight : ℚ) : ℚ :=
  max (innerHeight / c.VIEWPORT_MAX_TILES_Y)
    (widthStep4 c innerWidth innerHeight / c.VIEWPORT_MAX_TILES_X)

/-- Source function `app.Scene.prototype.calculateViewport_` (scene.js lines 176-218).
`windowInnerWidth`/`windowInnerHeight` are the raw `window.inner*` readings;
`toolbarWidth` is the value `this.blockly_.getToolbarWidth()` would return on
this pass.  Both window dimensions are floored at 320; if `force` is false
and both clamped dimensions equal the cached ones the pass is a no-op.
Otherwise the cache is updated, the aspect ratio, width and tile size are
derived, the portrait decision is taken, and `width_`, `scaleRatio_`,
`portraitMode_` and the `responsive` class are stored.  The final inline
style writes (`fontSize`, `width`) are DOM output of the already-stored
values and carry no further state. -/
def calculateViewport_ (c : ViewportConstraints) (s : SceneState) (force : Bool)
    (windowInnerWidth windowInnerHeight toolbarWidth : ℚ) : SceneState :=
  let innerWidth := max 320 windowInnerWidth
  let innerHeight := max 320 windowInnerHeight
  if force = false ∧ some innerHeight = s.cachedWindowHeight_ ∧
      some innerWidth = s.cachedWindowWidth_ then
    s
  else
    let aspectRatio := aspectRatioOf c innerWidth innerHeight
    let width := innerHeight * aspectRatio
    let tileSize := max (innerHeight / c.VIEWPORT_MAX_TILES_Y)
      (width / c.VIEWPORT_MAX_TILES_X)
    let workspaceWidth := innerWidth - toolbarWidth
    let portraitMode : Bool := workspaceWidth - width < c.BLOCKLY_MIN_WIDTH
    let width := if portraitMode then innerWidth - c.EDGE_MIN_WIDTH else width
    { s with
      cachedWindowHeight_ := some innerHeight
      cachedWindowWidth_ := some innerWidth
      portraitMode_ := portraitMode
      responsiveClass := portraitMode
      width_ := width
      scaleRatio_ := tileSize / (c.TILE_OUTER_SIZE * 10)
      aspectRatioCalls := s.aspectRatioCalls + 1 }

/-- Source function `app.Scene.prototype.getWidth` (scene.js lines 286-294): `0` when not
visible, `EDGE_MIN_WIDTH` in portrait mode, else the cached width. -/
def getWidth (c : ViewportConstraints) (s : SceneState) : ℚ :=
  if s.visible_ = false then 0
  else if s.portraitMode_ then c.EDGE_MIN_WIDTH
  else s.width_

/-- Source function `app.Scene.prototype.portraitToggleScene` (scene.js lines 240-245):
optionally signals the tutorial-dismissal collaborator, then toggles the
`show` class on the parent element to `!visible`. -/
def portraitToggleScene (s : SceneState) (visible : Bool)
    (userAction : Bool := false) : SceneState :=
  let s := if userAction then { s with tutorialDismissed := true } else s
  { s with showClass := !visible }

/-- Source function `app.Scene.prototype.toggleVisibility` (scene.js lines 300-306): records
the visibility flag (the `hidden` attribute writes are DOM output of the same
flag). -/
def toggleVisibility (s : SceneState) (visible : Bool) : SceneState :=
  { s with visible_ := visible }

/-- Source function `app.Scene.prototype.getPortraitMode` (scene.js lines 146-148). -/
def getPortraitMode (s : SceneState) : Bool :=
  s.portraitMode_

/-- Sample constraint values for concrete evaluations, using the tile counts
of the spec's example scenario together with `TILE_OUTER_SIZE = 8.4` from the
source statics. -/
def cSample : ViewportConstraints where
  VIEWPORT_MIN_TILES_X := 7.45
  VIEWPORT_MAX_TILES_X := 10.6
  VIEWPORT_MIN_TILES_Y := 9.6
  VIEWPORT_MAX_TILES_Y := 9.6
  TILE_OUTER_SIZE := 8.4
  BLOCKLY_MIN_WIDTH := 400
  EDGE_MIN_WIDTH := 60

/-- Sample freshly-constructed engine state (empty metrics cache). -/
def sSample : SceneState where
  cachedWindowHeight_ := none
  cachedWindowWidth_ := none
  portraitMode_ := false
  width_ := 0
  scaleRatio_ := 0
  visible_ := false
  responsiveClass := false
  showClass := false
  tutorialDismissed := false
  aspectRatioCalls := 0

/-- The clamped-dimension cache is written (or already held) by every pass. -/
lemma calculateViewport_cache_fields (c : ViewportConstraints) (s : SceneState)
    (force : Bool) (w h tbw : ℚ) :
    (calculateViewport_ c s force w h tbw).cachedWindowHeight_ = some (max 320 h) ∧
    (calculateViewport_ c s force w h tbw).cachedWindowWidth_ = some (max 320 w) := by
  simp only [calculateViewport_]
  split
  · next hcond => exact ⟨hcond.2.1.symm, hcond.2.2.symm⟩
  · exact ⟨rfl, rfl⟩

/-- A pass whose clamped dimensions match the cache and which is not forced
returns the state unchanged. -/
lemma calculateViewport_hit (c : ViewportConstraints) (s : SceneState) (w h tbw : ℚ)
    (hh : some (max 320 h) = s.cachedWindowHeight_)
    (hw : some (max 320 w) = s.cachedWindowWidth_) :
    calculateViewport_ c s false w h tbw = s := by
  simp only [calculateViewport_]
  exact if_pos ⟨trivial, hh, hw⟩

/-- Lower clamp bound of the aspect ratio, valid whenever the bounds are
ordered. -/
lemma le_aspectRatioOf (c : ViewportConstraints) (iw ih : ℚ)
    (hc : c.VIEWPORT_MIN_TILES_X / c.VIEWPORT_MAX_TILES_Y ≤
      c.VIEWPORT_MAX_TILES_X / c.VIEWPORT_MIN_TILES_Y) :
    c.VIEWPORT_MIN_TILES_X / c.VIEWPORT_MAX_TILES_Y ≤ aspectRatioOf c iw ih :=
  le_min (le_max_right _ _) hc

/-- Upper clamp bound of the aspect ratio. -/
lemma aspectRatioOf_le (c : ViewportConstraints) (iw ih : ℚ) :
    aspectRatioOf c iw ih ≤ c.VIEWPORT_MAX_TILES_X / c.VIEWPORT_MIN_TILES_Y :=
  min_le_right _ _

/-- C1. On a pass that misses the cache, if `workspaceWidth - width <
BLOCKLY_MIN_WIDTH` (with `workspaceWidth = clampedWidth - toolbarWidth` and
`width` the step-4 aspect-ratio-derived value), then the stored
`portraitMode_` is `true` and the stored `width_` is exactly
`clampedWidth - EDGE_MIN_WIDTH`. -/
theorem calculateViewport_portrait_trigger (c : ViewportConstraints) (s : SceneState)
    (force : Bool) (w h tbw : ℚ)
    (hmiss : ¬(force = false ∧ some (max 320 h) = s.cachedWindowHeight_ ∧
      some (max 320 w) = s.cachedWindowWidth_))
    (hport : max 320 w - tbw - widthStep4 c (max 320 w) (max 320 h) <
      c.BLOCKLY_MIN_WIDTH) :
    (calculateViewport_ c s force w h tbw).portraitMode_ = true ∧
    (calculateViewport_ c s force w h tbw).width_ = max 320 w - c.EDGE_MIN_WIDTH := by
  simp only [widthStep4] at hport
  simp only [calculateViewport_]
  rw [if_neg hmiss]
  simp [hport]

/-- C1 witness: window `1200 × 800`, toolbar `300`, forced pass with the
sample constants lands in portrait mode with width `1200 - 60`. -/
theorem calculateViewport_portrait_trigger_witness :
    (calculateViewport_ cSample sSample true 1200 800 300).portraitMode_ = true ∧
    (calculateViewport_ cSample sSample true 1200 800 300).width_ =
      max 320 1200 - cSample.EDGE_MIN_WIDTH :=
  calculateViewport_portrait_trigger cSample sSample true 1200 800 300
    (by simp) (by norm_num [widthStep4, aspectRatioOf, cSample])

/-- C2. On a pass that misses the cache, if `workspaceWidth - width ≥
BLOCKLY_MIN_WIDTH`, then the stored `portraitMode_` is `false` and the stored
`width_` is the step-4 value `clampedHeight * aspectRatio`, unmodified. -/
theorem calculateViewport_landscape_stability (c : ViewportConstraints) (s : SceneState)
    (force : Bool) (w h tbw : ℚ)
    (hmiss : ¬(force = false ∧ some (max 320 h) = s.cachedWindowHeight_ ∧
      some (max 320 w) = s.cachedWindowWidth_))
    (hland : c.BLOCKLY_MIN_WIDTH ≤
      max 320 w - tbw - widthStep4 c (max 320 w) (max 320 h)) :
    (calculateViewport_ c s force w h tbw).portraitMode_ = false ∧
    (calculateViewport_ c s force w h tbw).width_ =
      widthStep4 c (max 320 w) (max 320 h) := by
  have hnot := not_lt.mpr hland
  simp only [widthStep4] at hnot
  simp only [calculateViewport_, widthStep4]
  rw [if_neg hmiss]
  simp [hnot]

/-- C2 witness: window `1600 × 900`, toolbar `250`, forced pass with the
sample constants stays in landscape with the step-4 width. -/
theorem calculateViewport_landscape_stability_witness :
    (calculateViewport_ cSample sSample true 1600 900 250).portraitMode_ = false ∧
    (calculateViewport_ cSample sSample true 1600 900 250).width_ =
      widthStep4 cSample (max 320 1600) (max 320 900) :=
  calculateViewport_landscape_stability cSample sSample true 1600 900 250
    (by simp) (by norm_num [widthStep4, aspectRatioOf, cSample])

/-- C3. Two consecutive passes with identical raw window dimensions, the
second not forced, leave the whole state (the `LayoutResult` and the cached
metrics) unchanged on the second pass, and the second pass does not rerun
the aspect-ratio derivation (the instrumentation counter is unchanged). -/
theorem calculateViewport_idempotent (c : ViewportConstraints) (s : SceneState)
    (force : Bool) (w h tbw tbw' : ℚ) :
    calculateViewport_ c (calculateViewport_ c s force w h tbw) false w h tbw' =
      calculateViewport_ c s force w h tbw ∧
    (calculateViewport_ c (calculateViewport_ c s force w h tbw) false w h
        tbw').aspectRatioCalls =
      (calculateViewport_ c s force w h tbw).aspectRatioCalls := by
  have hcf := calculateViewport_cache_fields c s force w h tbw
  have hfix := calculateViewport_hit c (calculateViewport_ c s force w h tbw)
    w h tbw' hcf.1.symm hcf.2.symm
  exact ⟨hfix, by rw [hfix]⟩

/-- C4. For every constraint set whose clamp bounds are ordered, the derived
aspect ratio of a pass lies in
`[VIEWPORT_MIN_TILES_X / VIEWPORT_MAX_TILES_Y,
VIEWPORT_MAX_TILES_X / VIEWPORT_MIN_TILES_Y]`. -/
theorem aspectRatio_bounds (c : ViewportConstraints) (w h : ℚ)
    (hc : c.VIEWPORT_MIN_TILES_X / c.VIEWPORT_MAX_TILES_Y ≤
      c.VIEWPORT_MAX_TILES_X / c.VIEWPORT_MIN_TILES_Y) :
    c.VIEWPORT_MIN_TILES_X / c.VIEWPORT_MAX_TILES_Y ≤
      aspectRatioOf c (max 320 w) (max 320 h) ∧
    aspectRatioOf c (max 320 w) (max 320 h) ≤
      c.VIEWPORT_MAX_TILES_X / c.VIEWPORT_MIN_TILES_Y :=
  ⟨le_aspectRatioOf c _ _ hc, aspectRatioOf_le c _ _⟩

/-- C4 witness: the bounds hold at the sample constants and window
`1200 × 800`. -/
theorem aspectRatio_bounds_witness :
    cSample.VIEWPORT_MIN_TILES_X / cSample.VIEWPORT_MAX_TILES_Y ≤
      aspectRatioOf cSample (max 320 1200) (max 320 800) ∧
    aspectRatioOf cSample (max 320 1200) (max 320 800) ≤
      cSample.VIEWPORT_MAX_TILES_X / cSample.VIEWPORT_MIN_TILES_Y :=
  aspectRatio_bounds cSample 1200 800 (by norm_num [cSample])

/-- C5. For positive finite window dimensions, a non-negative toolbar width,
and a well-formed constraint set (positive clamp numerator/denominator,
ordered clamp bounds, `EDGE_MIN_WIDTH < 320`, positive `TILE_OUTER_SIZE`),
any pass that misses the cache stores a strictly positive width and a
strictly positive scale ratio. -/
theorem calculateViewport_positive (c : ViewportConstraints) (s : SceneState)
    (force : Bool) (w h tbw : ℚ)
    (hmiss : ¬(force = false ∧ some (max 320 h) = s.cachedWindowHeight_ ∧
      some (max 320 w) = s.cachedWindowWidth_))
    (hw : 0 < w) (hh : 0 < h) (htbw : 0 ≤ tbw)
    (hminX : 0 < c.VIEWPORT_MIN_TILES_X)
    (hmaxY : 0 < c.VIEWPORT_MAX_TILES_Y)
    (hbounds : c.VIEWPORT_MIN_TILES_X / c.VIEWPORT_MAX_TILES_Y ≤
      c.VIEWPORT_MAX_TILES_X / c.VIEWPORT_MIN_TILES_Y)
    (hedge : c.EDGE_MIN_WIDTH < 320)
    (houter : 0 < c.TILE_OUTER_SIZE) :
    0 < (calculateViewport_ c s force w h tbw).width_ ∧
    0 < (calculateViewport_ c s force w h tbw).scaleRatio_ := by
  have hih : (0:ℚ) < max 320 h := lt_of_lt_of_le (by norm_num) (le_max_left _ _)
  have hiw : (320:ℚ) ≤ max 320 w := le_max_left _ _
  have haspect : 0 < aspectRatioOf c (max 320 w) (max 320 h) :=
    lt_of_lt_of_le (div_pos hminX hmaxY) (le_aspectRatioOf c _ _ hbounds)
  have hw4 : 0 < (max 320 h) * aspectRatioOf c (max 320 w) (max 320 h) :=
    mul_pos hih haspect
  have htile : 0 < max ((max 320 h) / c.VIEWPORT_MAX_TILES_Y)
      ((max 320 h) * aspectRatioOf c (max 320 w) (max 320 h) /
        c.VIEWPORT_MAX_TILES_X) :=
    lt_of_lt_of_le (div_pos hih hmaxY) (le_max_left _ _)
  simp only [calculateViewport_]
  rw [if_neg hmiss]
  constructor
  · by_cases hp : max 320 w - tbw -
        (max 320 h) * aspectRatioOf c (max 320 w) (max 320 h) < c.BLOCKLY_MIN_WIDTH
    · simp [hp]
      exact Or.inl hedge
    · simpa [hp] using hw4
  · exact div_pos htile (mul_pos houter (by norm_num))

/-- C5 witness: the sample constants and window `1200 × 800`, toolbar `300`,
on a forced pass yield positive width and scale ratio. -/
theorem calculateViewport_positive_witness :
    0 < (calculateViewport_ cSample sSample true 1200 800 300).width_ ∧
    0 < (calculateViewport_ cSample sSample true 1200 800 300).scaleRatio_ :=
  calculateViewport_positive cSample sSample true 1200 800 300
    (by simp) (by norm_num) (by norm_num) (by norm_num)
    (by norm_num [cSample]) (by norm_num [cSample]) (by norm_num [cSample])
    (by norm_num [cSample]) (by norm_num [cSample])

/-- C6. On any pass that misses the cache, the stored scale ratio equals
`tileSize / (TILE_OUTER_SIZE * 10)` where `tileSize` is computed from the
step-4 aspect-ratio-derived width, before any portrait override. -/
theorem calculateViewport_scaleRatio_eq (c : ViewportConstraints) (s : SceneState)
    (force : Bool) (w h tbw : ℚ)
    (hmiss : ¬(force = false ∧ some (max 320 h) = s.cachedWindowHeight_ ∧
      some (max 320 w) = s.cachedWindowWidth_)) :
    (calculateViewport_ c s force w h tbw).scaleRatio_ =
      tileSizeOf c (max 320 w) (max 320 h) / (c.TILE_OUTER_SIZE * 10) := by
  simp only [calculateViewport_, tileSizeOf, widthStep4]
  rw [if_neg hmiss]

/-- C6 witness: concrete evaluation at the sample constants, window
`1200 × 800`, toolbar `300` (a portrait-mode pass, showing the override does
not feed back into the scale ratio). -/
theorem calculateViewport_scaleRatio_eq_witness :
    (calculateViewport_ cSample sSample true 1200 800 300).scaleRatio_ =
      tileSizeOf cSample (max 320 1200) (max 320 800) /
        (cSample.TILE_OUTER_SIZE * 10) :=
  calculateViewport_scaleRatio_eq cSample sSample true 1200 800 300 (by simp)

/-- C7. For raw window dimensions both below 320, a pass behaves exactly as
if both were 320; moreover each dimension is clamped to the 320 floor
independently of the other. -/
theorem calculateViewport_floor (c : ViewportConstraints) (s : SceneState)
    (force : Bool) (w h tbw : ℚ) (hw : w < 320) (hh : h < 320) :
    calculateViewport_ c s force w h tbw =
      calculateViewport_ c s force 320 320 tbw ∧
    (∀ wr hr : ℚ, calculateViewport_ c s force wr hr tbw =
      calculateViewport_ c s force (max 320 wr) (max 320 hr) tbw) := by
  constructor
  · have hw' : max 320 w = (320:ℚ) := max_eq_left hw.le
    have hh' : max 320 h = (320:ℚ) := max_eq_left hh.le
    simp only [calculateViewport_, hw', hh', max_self]
  · intro wr hr
    simp only [calculateViewport_, ← max_assoc, max_self]

/-- C7 witness: window `300 × 200` behaves as `320 × 320` at the sample
constants. -/
theorem calculateViewport_floor_witness :
    calculateViewport_ cSample sSample false 300 200 100 =
      calculateViewport_ cSample sSample false 320 320 100 :=
  (calculateViewport_floor cSample sSample false 300 200 100
    (by norm_num) (by norm_num)).1

/-- C8. `getWidth` returns `0` when the viewport is not visible,
`EDGE_MIN_WIDTH` when visible in portrait mode, and the cached width when
visible in landscape mode. -/
theorem getWidth_cases (c : ViewportConstraints) (s : SceneState) :
    (s.visible_ = false → getWidth c s = 0) ∧
    (s.visible_ = true → s.portraitMode_ = true →
      getWidth c s = c.EDGE_MIN_WIDTH) ∧
    (s.visible_ = true → s.portraitMode_ = false →
      getWidth c s = s.width_) := by
  exact ⟨fun hv => by simp [getWidth, hv],
    fun hv hp => by simp [getWidth, hv, hp],
    fun hv hp => by simp [getWidth, hv, hp]⟩

/-- C8 witness: the three branches evaluated at concrete states. -/
theorem getWidth_cases_witness :
    getWidth cSample sSample = 0 ∧
    getWidth cSample { sSample with
        visible_ := true,
        portraitMode_ := true } =
      cSample.EDGE_MIN_WIDTH ∧
    getWidth cSample { sSample with
        visible_ := true,
        width_ := 500 } = 500 :=
  ⟨(getWidth_cases cSample sSample).1 rfl,
   (getWidth_cases cSample
      { sSample with
        visible_ := true,
        portraitMode_ := true }).2.1 rfl rfl,
   (getWidth_cases cSample
      { sSample with
        visible_ := true,
        width_ := 500 }).2.2 rfl rfl⟩

/-- C9. `portraitToggleScene` leaves every cached layout number unchanged:
`width_`, `scaleRatio_`, `portraitMode_` and the cached window metrics are
those of the state before the call, for every visibility flag and user-action
flag. -/
theorem portraitToggleScene_preserves_layout (s : SceneState)
    (visible userAction : Bool) :
    (portraitToggleScene s visible userAction).width_ = s.width_ ∧
    (portraitToggleScene s visible userAction).scaleRatio_ = s.scaleRatio_ ∧
    (portraitToggleScene s visible userAction).portraitMode_ = s.portraitMode_ ∧
    (portraitToggleScene s visible userAction).cachedWindowWidth_ =
      s.cachedWindowWidth_ ∧
    (portraitToggleScene s visible userAction).cachedWindowHeight_ =
      s.cachedWindowHeight_ := by
  cases userAction <;> simp [portraitToggleScene]

/-- C10. A non-forced pass whose clamped dimensions match the cache returns
the state unchanged for every toolbar width: the toolbar width is never read,
and `portraitMode_` and `width_` keep the values of the earlier pass. -/
theorem calculateViewport_cacheHit_ignores_toolbar (c : ViewportConstraints)
    (s : SceneState) (w h : ℚ)
    (hh : some (max 320 h) = s.cachedWindowHeight_)
    (hw : some (max 320 w) = s.cachedWindowWidth_) :
    ∀ tbw tbw' : ℚ,
      calculateViewport_ c s false w h tbw =
        calculateViewport_ c s false w h tbw' ∧
      calculateViewport_ c s false w h tbw = s := by
  intro tbw tbw'
  have h1 := calculateViewport_hit c s w h tbw hh hw
  have h2 := calculateViewport_hit c s w h tbw' hh hw
  exact ⟨h1.trans h2.symm, h1⟩

/-- C10 witness: a cached `1024 × 768` state is returned unchanged under two
different toolbar widths. -/
theorem calculateViewport_cacheHit_ignores_toolbar_witness :
    calculateViewport_ cSample
        { sSample with
          cachedWindowHeight_ := some 768
          cachedWindowWidth_ := some 1024 } false 1024 768 111 =
      calculateViewport_ cSample
        { sSample with
          cachedWindowHeight_ := some 768
          cachedWindowWidth_ := some 1024 } false 1024 768 222 ∧
    calculateViewport_ cSample
        { sSample with
          cachedWindowHeight_ := some 768
          cachedWindowWidth_ := some 1024 } false 1024 768 111 =
      { sSample with
        cachedWindowHeight_ := some 768
        cachedWindowWidth_ := some 1024 } :=
  calculateViewport_cacheHit_ignores_toolbar cSample
    { sSample with
      cachedWindowHeight_ := some 768
      cachedWindowWidth_ := some 1024 } 1024 768
    (by norm_num) (by norm_num) 111 222

end CraneOperator
